import Mathlib

/-!
Shallow embedding of the simple-bot-py food-ordering backend
(`src/data/repository/*.py`, `src/services/*.py`,
`src/agent/customer_service_agent.py`) and proofs about the behaviour its
specification describes.

Database tables are modelled as Lean lists of row structures, and each
repository/service method becomes a pure function from the database state
(plus its arguments) to the new state and a result.  Python exceptions are
modelled with `Except String`; a Python method that can return `None`
returns an `Option`.  Python `int` is modelled as `ℤ`, SQL numeric
expressions over floats (the pgvector similarity score) as `ℚ`.
-/

/-! ### Python helpers -/

/-- Python `str.strip()`: remove leading and trailing whitespace.
Implemented over the character list so that it reduces definitionally
(`String.trim` does not kernel-reduce). -/
def pyStrip (s : String) : String :=
  ⟨((s.data.dropWhile Char.isWhitespace).reverse.dropWhile Char.isWhitespace).reverse⟩

/-! ### Conversation store (`src/data/models/chat.py`,
`src/data/repository/chat_repository.py`, `src/services/chat_service.py`) -/

/-- One stored chat message record: an element of the JSON `history` column.
`role` models `msg.get("role")` (`none` when the key is absent); `content`
stands for the rest of the record, treated as opaque.  The
`to_jsonable_python` / `ModelMessagesTypeAdapter.validate_python`
round-trip of `pydantic_ai` messages is modelled as the identity. -/
structure Message where
  role : Option String
  content : String
deriving DecidableEq

/-- Row of the `chat_session` table (`ChatSession` model): the per-phone
message history.  `id`, `created_at`, `updated_at` are not read by any
claimed behaviour and are omitted. -/
structure ChatSession where
  user_phone : String
  history : List Message
deriving DecidableEq

/-- The `chat_session` table. -/
abbrev ChatDB := List ChatSession

/-- Embedding of `ChatRepository.get_by_phone`: `select(ChatSession).where(user_phone ==
phone)` with `scalar_one_or_none()`.  The phone is effectively unique
(`scalar_one_or_none` raises on duplicates and `get_or_create` never
creates a second row), so the first match is the row. -/
def get_by_phone (db : ChatDB) (user_phone : String) : Option ChatSession :=
  db.find? (fun c => c.user_phone == user_phone)

/-- Embedding of `ChatRepository.save_conversation`: `get_or_create` (inserts a fresh
session at the end of the table when none exists), then replaces —
does not append to — the stored history with the caller's list. -/
def ChatRepository.save_conversation (db : ChatDB) (user_phone : String)
    (messages : List Message) : ChatDB :=
  match get_by_phone db user_phone with
  | some _ =>
      db.map (fun c =>
        if c.user_phone == user_phone then { c with history := messages } else c)
  | none => db ++ [{ user_phone := user_phone, history := messages }]

/-- Python list slice `l[-m:]` for an `int` `m`, as used in
`chat.history[-max_messages:]`: the last `m` elements when `0 < m`, the
whole list when `m = 0` (since `-0 == 0`), and `l[(-m):]` when `m < 0`. -/
def pySliceLast (l : List Message) (m : ℤ) : List Message :=
  if 0 < m then l.drop (l.length - m.toNat)
  else if m = 0 then l
  else l.drop (-m).toNat

/-- The predicate `msg.get("role") == "user"` of
`ChatRepository.get_history`. -/
def isUserMsg (msg : Message) : Bool :=
  msg.role == some "user"

/-- Embedding of `ChatRepository.get_history`: empty when no session exists; the whole
history when its length is at most `max_messages`; otherwise the last
`max_messages` entries starting at the first entry whose role is
`"user"` — `next(..., 0)` defaults the start index to `0` when the slice
contains no user entry. -/
def ChatRepository.get_history (db : ChatDB) (user_phone : String)
    (max_messages : ℤ) : List Message :=
  match get_by_phone db user_phone with
  | none => []
  | some chat =>
      if (chat.history.length : ℤ) ≤ max_messages then chat.history
      else
        let messages := pySliceLast chat.history max_messages
        let first_user_idx :=
          if messages.any isUserMsg then messages.findIdx isUserMsg else 0
        messages.drop first_user_idx

/-- Embedding of `ChatService.get_history`: returns `[]` for a non-positive
`max_messages`, caps `max_messages` at 20, returns `[]` for a blank
phone, and otherwise delegates to the repository. -/
def ChatService.get_history (db : ChatDB) (user_phone : String)
    (max_messages : ℤ) : List Message :=
  if max_messages ≤ 0 then []
  else
    let capped := if 20 < max_messages then 20 else max_messages
    if pyStrip user_phone == "" then []
    else ChatRepository.get_history db user_phone capped

/-! ### Helper lemmas for the conversation store -/

/-- Updating the history of the sessions matching a phone commutes with
looking the phone up: the update does not touch `user_phone`. -/
theorem get_by_phone_map_update (db : ChatDB) (user_phone : String)
    (messages : List Message) :
    get_by_phone
      (db.map (fun c =>
        if c.user_phone == user_phone then { c with history := messages } else c))
      user_phone
    = (get_by_phone db user_phone).map (fun c =>
        if c.user_phone == user_phone then { c with history := messages } else c) := by
  unfold get_by_phone
  rw [List.find?_map]
  have hp : ((fun c : ChatSession => c.user_phone == user_phone) ∘ fun c =>
      if c.user_phone == user_phone then { c with history := messages } else c)
      = fun c : ChatSession => c.user_phone == user_phone := by
    funext c
    by_cases h : c.user_phone = user_phone <;> simp [h]
  rw [hp]

/-- After `save_conversation`, looking the phone up finds a session whose
history is exactly the saved list. -/
theorem get_by_phone_save (db : ChatDB) (user_phone : String)
    (messages : List Message) :
    ∃ c, get_by_phone (ChatRepository.save_conversation db user_phone messages)
        user_phone = some c ∧ c.history = messages := by
  unfold ChatRepository.save_conversation
  cases hfind : get_by_phone db user_phone with
  | none =>
      refine ⟨{ user_phone := user_phone, history := messages }, ?_, rfl⟩
      unfold get_by_phone at hfind ⊢
      rw [List.find?_append, hfind]
      simp [List.find?]
  | some c =>
      rw [get_by_phone_map_update, hfind]
      have hc : (c.user_phone == user_phone) = true := by
        unfold get_by_phone at hfind
        exact List.find?_some (p := fun s : ChatSession => s.user_phone == user_phone)
          hfind
      have hc2 : c.user_phone = user_phone := by simpa using hc
      refine ⟨{ c with history := messages }, ?_, rfl⟩
      simp [hc2]

/-- Reading the history of a phone whose session exists, written without
the `match`. -/
theorem get_history_eq_of_found (db : ChatDB) (user_phone : String)
    (max_messages : ℤ) (chat : ChatSession)
    (hfind : get_by_phone db user_phone = some chat) :
    ChatRepository.get_history db user_phone max_messages =
      if (chat.history.length : ℤ) ≤ max_messages then chat.history
      else
        (pySliceLast chat.history max_messages).drop
          (if (pySliceLast chat.history max_messages).any isUserMsg then
            (pySliceLast chat.history max_messages).findIdx isUserMsg
          else 0) := by
  unfold ChatRepository.get_history
  rw [hfind]

/-- With a positive `max_messages`, the repository returns at most
`max_messages` messages. -/
theorem get_history_length_le (db : ChatDB) (user_phone : String)
    (m : ℤ) (hm : 0 < m) :
    ((ChatRepository.get_history db user_phone m).length : ℤ) ≤ m := by
  unfold ChatRepository.get_history
  cases get_by_phone db user_phone with
  | none => simp only [List.length_nil, Nat.cast_zero]; omega
  | some chat =>
      by_cases hlen : (chat.history.length : ℤ) ≤ m
      · simpa [hlen] using hlen
      · have hslice : (pySliceLast chat.history m).length = m.toNat := by
          unfold pySliceLast
          rw [if_pos hm, List.length_drop]
          have h1 : m.toNat ≤ chat.history.length := by
            have := lt_of_not_le hlen
            omega
          omega
        have key : ∀ k : ℕ, (((pySliceLast chat.history m).drop k).length : ℤ) ≤ m := by
          intro k
          rw [List.length_drop, hslice]
          omega
        simp only [if_neg hlen]
        exact key _

/-- Normal form of `ChatService.get_history`: the guard cascade written as
nested conditionals. -/
theorem ChatService.get_history_eq (db : ChatDB) (user_phone : String)
    (max_messages : ℤ) :
    ChatService.get_history db user_phone max_messages =
      if max_messages ≤ 0 then []
      else if pyStrip user_phone == "" then []
      else ChatRepository.get_history db user_phone
        (if 20 < max_messages then 20 else max_messages) := by
  unfold ChatService.get_history
  by_cases h : max_messages ≤ 0 <;> simp [h]

/-! ### Claims C2, C8, C10 -/

/-- Claim C2 (amended): when the stored history strictly exceeds
`max_messages` and the last `max_messages` entries contain at least one
entry whose role is "user", `ChatRepository.get_history` returns a
non-empty sequence whose first element has role "user".  (Without a user
entry in the slice, `next(..., 0)` defaults the start index to 0 and the
whole slice is returned, so the unconditional claim fails; see the
counterexample.) -/
theorem C2_get_history_first_is_user (db : ChatDB) (user_phone : String)
    (max_messages : ℤ) (chat : ChatSession)
    (hfind : get_by_phone db user_phone = some chat)
    (hlen : max_messages < (chat.history.length : ℤ))
    (huser : (pySliceLast chat.history max_messages).any isUserMsg = true) :
    ∃ m rest, ChatRepository.get_history db user_phone max_messages = m :: rest ∧
      m.role = some "user" := by
  have hnot : ¬ (chat.history.length : ℤ) ≤ max_messages := not_le.mpr hlen
  have hex : ∃ x ∈ pySliceLast chat.history max_messages, isUserMsg x = true :=
    List.any_eq_true.mp huser
  have hlt : (pySliceLast chat.history max_messages).findIdx isUserMsg
      < (pySliceLast chat.history max_messages).length :=
    List.findIdx_lt_length_of_exists hex
  have hdrop := List.drop_eq_getElem_cons hlt
  have hrole : isUserMsg
      ((pySliceLast chat.history max_messages)[(pySliceLast chat.history
        max_messages).findIdx isUserMsg]) = true :=
    List.findIdx_getElem
  rw [get_history_eq_of_found db user_phone max_messages chat hfind,
    if_neg hnot, if_pos huser]
  exact ⟨_, _, hdrop, by simpa [isUserMsg] using hrole⟩

/-- Witness for claim C2 at a concrete store: four messages, window of
three, the window contains a user entry. -/
theorem C2_witness :
    ∃ m rest,
      ChatRepository.get_history
        [⟨"+56922222222",
          [⟨some "user", "m1"⟩, ⟨some "assistant", "m2"⟩,
           ⟨some "user", "m3"⟩, ⟨some "assistant", "m4"⟩]⟩]
        "+56922222222" 3 = m :: rest ∧ m.role = some "user" :=
  C2_get_history_first_is_user _ _ _
    ⟨"+56922222222",
      [⟨some "user", "m1"⟩, ⟨some "assistant", "m2"⟩,
       ⟨some "user", "m3"⟩, ⟨some "assistant", "m4"⟩]⟩
    (by decide) (by decide) (by decide)

/-- Counterexample for claim C2 as stated: the stored history exceeds
`max_messages = 2`, yet the returned sequence begins with an assistant
entry, because the two-entry window contains no user entry and the start
index defaults to 0. -/
theorem C2_counterexample :
    2 < (([(⟨some "user", "hola"⟩ : Message), ⟨some "assistant", "r1"⟩,
        ⟨some "assistant", "r2"⟩] : List Message).length : ℤ) ∧
    ChatRepository.get_history
      [⟨"+56911111111",
        [⟨some "user", "hola"⟩, ⟨some "assistant", "r1"⟩,
         ⟨some "assistant", "r2"⟩]⟩]
      "+56911111111" 2
      = [⟨some "assistant", "r1"⟩, ⟨some "assistant", "r2"⟩] ∧
    (ChatRepository.get_history
      [⟨"+56911111111",
        [⟨some "user", "hola"⟩, ⟨some "assistant", "r1"⟩,
         ⟨some "assistant", "r2"⟩]⟩]
      "+56911111111" 2).head?.map Message.role ≠ some (some "user") := by
  decide

/-- Claim C8: `save_conversation` replaces the stored history wholesale
(creating the session if absent), and an immediate `get_history` with
`max_messages = len(M)` returns exactly M, untruncated. -/
theorem C8_save_get_roundtrip (db : ChatDB) (user_phone : String)
    (M : List Message) :
    ChatRepository.get_history
      (ChatRepository.save_conversation db user_phone M) user_phone
      (M.length : ℤ) = M := by
  obtain ⟨c, hc, hh⟩ := get_by_phone_save db user_phone M
  rw [get_history_eq_of_found _ _ _ c hc, hh]
  simp

/-- Claim C10: `ChatService.get_history` returns at most 20 messages; a
request above 20 is capped to 20 before delegating to the repository; a
non-positive `max_messages` or a blank phone yields `[]` (the repository
is not consulted in those branches). -/
theorem C10_chat_service_cap (db : ChatDB) (user_phone : String)
    (max_messages : ℤ) :
    (ChatService.get_history db user_phone max_messages).length ≤ 20 ∧
    (max_messages ≤ 0 → ChatService.get_history db user_phone max_messages = []) ∧
    (pyStrip user_phone = "" →
      ChatService.get_history db user_phone max_messages = []) ∧
    (20 < max_messages → pyStrip user_phone ≠ "" →
      ChatService.get_history db user_phone max_messages
        = ChatRepository.get_history db user_phone 20) ∧
    (0 < max_messages → max_messages ≤ 20 → pyStrip user_phone ≠ "" →
      ChatService.get_history db user_phone max_messages
        = ChatRepository.get_history db user_phone max_messages) := by
  have heq := ChatService.get_history_eq db user_phone max_messages
  refine ⟨?_, ?_, ?_, ?_, ?_⟩
  · rw [heq]
    by_cases h0 : max_messages ≤ 0
    · simp [h0]
    · by_cases hb : pyStrip user_phone == ""
      · simp [h0, hb]
      · rw [if_neg h0, if_neg hb]
        by_cases h20 : 20 < max_messages
        · have := get_history_length_le db user_phone 20 (by omega)
          rw [if_pos h20]
          omega
        · have := get_history_length_le db user_phone max_messages (by omega)
          rw [if_neg h20]
          omega
  · intro h
    rw [heq]
    simp [h]
  · intro h
    have hb : (pyStrip user_phone == "") = true := by simp [h]
    rw [heq]
    by_cases h0 : max_messages ≤ 0 <;> simp [h0, hb]
  · intro h20 hb
    rw [heq]
    simp [show ¬ max_messages ≤ 0 by omega, h20, hb]
  · intro hpos hle hb
    rw [heq]
    simp [show ¬ max_messages ≤ 0 by omega, show ¬ 20 < max_messages by omega, hb]

/-- Witness for claim C10: a request of 25 on an empty store is capped to
20 and bounded by 20. -/
theorem C10_witness :
    (ChatService.get_history [] "+56911111111" 25).length ≤ 20 ∧
    ChatService.get_history [] "+56911111111" 25
      = ChatRepository.get_history [] "+56911111111" 20 :=
  ⟨(C10_chat_service_cap [] "+56911111111" 25).1,
   (C10_chat_service_cap [] "+56911111111" 25).2.2.2.1 (by decide) (by decide)⟩

/-! ### Order store (`src/data/models/orders.py`, `order_items.py`,
`products.py`, `src/data/repository/order_repository.py`,
`src/services/order_service.py`) -/

/-- Embedding of `CreateOrderItemDTO` (`src/data/dto/create_order_dto.py`). -/
structure CreateOrderItemDTO where
  product_id : ℤ
  quantity : ℤ
  price_per_unit : ℤ
deriving DecidableEq

/-- Pydantic field constraints of `CreateOrderItemDTO`: all three fields
are `gt=0`. -/
def CreateOrderItemDTO.valid (i : CreateOrderItemDTO) : Prop :=
  0 < i.product_id ∧ 0 < i.quantity ∧ 0 < i.price_per_unit

instance : DecidablePred CreateOrderItemDTO.valid := fun i => by
  unfold CreateOrderItemDTO.valid
  infer_instance

/-- Embedding of `CreateOrderDTO` (`src/data/dto/create_order_dto.py`). -/
structure CreateOrderDTO where
  customer_name : String
  customer_phone : String
  customer_address : String
  payment_method : String
  total_amount : ℤ
  items : List CreateOrderItemDTO
deriving DecidableEq

/-- Pydantic validation of `CreateOrderDTO`: non-empty strings, payment
method from the closed pattern, positive `total_amount`, at least one
item, all items valid.  Nothing relates `total_amount` to the items. -/
def CreateOrderDTO.valid (d : CreateOrderDTO) : Prop :=
  1 ≤ d.customer_name.length ∧ 1 ≤ d.customer_phone.length ∧
  1 ≤ d.customer_address.length ∧
  (d.payment_method = "efectivo" ∨ d.payment_method = "tarjeta" ∨
    d.payment_method = "transferencia") ∧
  0 < d.total_amount ∧ 1 ≤ d.items.length ∧ ∀ i ∈ d.items, i.valid

instance : DecidablePred CreateOrderDTO.valid := fun d => by
  unfold CreateOrderDTO.valid
  infer_instance

/-- Row of the `orders` table.  `created_at` / `updated_at` are not read
by any claimed behaviour and are omitted. -/
structure OrderRow where
  id : ℤ
  order_code : String
  customer_name : String
  customer_phone : String
  customer_address : String
  payment_method : String
  total_amount : ℤ
  status : String
deriving DecidableEq

/-- Row of the `order_items` table. -/
structure OrderItemRow where
  id : ℤ
  order_id : ℤ
  product_id : ℤ
  quantity : ℤ
  price_per_unit : ℤ
deriving DecidableEq

/-- Row of the `product` table (`src/data/models/products.py`).  The
pgvector embedding column is a vector of rationals here. -/
structure ProductRow where
  id : ℤ
  name : String
  description : Option String
  price : ℤ
  available : Bool
  embedding : List ℚ
deriving DecidableEq

/-- The relational state the order repository works on, with the
autoincrement counters of the two tables it inserts into. -/
structure OrdersDB where
  orders : List OrderRow
  order_items : List OrderItemRow
  products : List ProductRow
  next_order_id : ℤ
  next_item_id : ℤ
deriving DecidableEq

/-- Embedding of `OrderItemDetailDTO` (`src/data/dto/order_item_detail_dto.py`). -/
structure OrderItemDetailDTO where
  product_id : ℤ
  product_name : String
  quantity : ℤ
  price_per_unit : ℤ
  subtotal : ℤ
deriving DecidableEq

/-- Embedding of `OrderDetailDTO` (`src/data/dto/order_detail_dto.py`). -/
structure OrderDetailDTO where
  order_id : ℤ
  order_code : String
  customer_name : String
  customer_phone : String
  customer_address : String
  payment_method : String
  total_amount : ℤ
  status : String
  items : List OrderItemDetailDTO
deriving DecidableEq

/-- The item query of `get_detail_by_code`: the order's item rows
inner-joined with `Product` for the product name; an item whose product
row is missing falls out of the join. -/
def order_items_detail (db : OrdersDB) (order_id : ℤ) : List OrderItemDetailDTO :=
  (db.order_items.filter (fun it => it.order_id == order_id)).filterMap
    (fun it =>
      (db.products.find? (fun p => p.id == it.product_id)).map
        (fun p =>
          { product_id := it.product_id, product_name := p.name,
            quantity := it.quantity, price_per_unit := it.price_per_unit,
            subtotal := it.quantity * it.price_per_unit }))

/-- Embedding of `OrderRepository.get_detail_by_code`: assembles the denormalized
order + items view, or `none` when the code is unknown. -/
def OrderRepository.get_detail_by_code (db : OrdersDB) (order_code : String) :
    Option OrderDetailDTO :=
  match db.orders.find? (fun o => o.order_code == order_code) with
  | none => none
  | some order =>
      some { order_id := order.id, order_code := order.order_code,
             customer_name := order.customer_name,
             customer_phone := order.customer_phone,
             customer_address := order.customer_address,
             payment_method := order.payment_method,
             total_amount := order.total_amount, status := order.status,
             items := order_items_detail db order.id }

/-- Embedding of `OrderRepository.get_by_code`: queries the order row and delegates to
`get_detail_by_code`.  Note the source returns an `OrderDetailDTO` — a
detached pydantic value, not the ORM row (its own Protocol declares
`Orders | None`). -/
def OrderRepository.get_by_code (db : OrdersDB) (order_code : String) :
    Option OrderDetailDTO :=
  match db.orders.find? (fun o => o.order_code == order_code) with
  | none => none
  | some _ => OrderRepository.get_detail_by_code db order_code

/-- The order row inserted by `OrderRepository.create`:
caller-supplied fields, the generated code, status `"pending"` from the
model default, `total_amount` taken verbatim from the DTO. -/
def createdOrderRow (db : OrdersDB) (order_data : CreateOrderDTO)
    (generated_code : String) : OrderRow :=
  { id := db.next_order_id, order_code := generated_code,
    customer_name := order_data.customer_name,
    customer_phone := order_data.customer_phone,
    customer_address := order_data.customer_address,
    payment_method := order_data.payment_method,
    total_amount := order_data.total_amount, status := "pending" }

/-- The item rows inserted by `OrderRepository.create`, with sequential
autoincrement ids. -/
def createdItemRows (db : OrdersDB) (order_data : CreateOrderDTO) :
    List OrderItemRow :=
  order_data.items.enum.map fun ni =>
    { id := db.next_item_id + (ni.1 : ℤ), order_id := db.next_order_id,
      product_id := ni.2.product_id, quantity := ni.2.quantity,
      price_per_unit := ni.2.price_per_unit }

/-- The database state after `OrderRepository.create` commits. -/
def createdDB (db : OrdersDB) (order_data : CreateOrderDTO)
    (generated_code : String) : OrdersDB :=
  { db with orders := db.orders ++ [createdOrderRow db order_data generated_code],
            order_items := db.order_items ++ createdItemRows db order_data,
            next_order_id := db.next_order_id + 1,
            next_item_id := db.next_item_id + order_data.items.length }

/-- Embedding of `OrderRepository.create`.  `generated_code` stands for the random
six-character nanoid produced by the `order_code` default factory.  The
`commit()` raises `IntegrityError`, rolling the transaction back, when an
item references a missing product or the generated code collides with an
existing one; otherwise the order row and item rows persist and the
detail view is re-read (raising `ValueError` if it cannot be, which
cannot happen for a row just inserted). -/
def OrderRepository.create (db : OrdersDB) (order_data : CreateOrderDTO)
    (generated_code : String) : OrdersDB × Except String OrderDetailDTO :=
  if (order_data.items.all fun it =>
        db.products.any fun p => p.id == it.product_id)
      && !(db.orders.any fun o => o.order_code == generated_code) then
    match OrderRepository.get_detail_by_code
        (createdDB db order_data generated_code) generated_code with
    | some detail => (createdDB db order_data generated_code, .ok detail)
    | none =>
        (createdDB db order_data generated_code,
         .error ("Failed to retrieve created order: " ++ generated_code))
  else (db, .error "IntegrityError")

/-- Embedding of `OrderService.create_order`: rejects an empty item list, then
delegates to the repository. -/
def OrderService.create_order (db : OrdersDB) (order_data : CreateOrderDTO)
    (generated_code : String) : OrdersDB × Except String OrderDetailDTO :=
  if order_data.items.isEmpty then
    (db, .error "Order must contain at least one item")
  else OrderRepository.create db order_data generated_code

/-- Embedding of `OrderRepository.update_status`: `get_by_code` returns an
`OrderDetailDTO` — a detached pydantic copy, not the ORM row.  The source
sets `status` on that copy, commits (no ORM object was modified, so
nothing is written), then calls `session.refresh` on the non-ORM object,
which raises `UnmappedInstanceError`.  The stored row never changes. -/
def OrderRepository.update_status (db : OrdersDB) (order_code : String)
    (new_status : String) : OrdersDB × Except String (Option OrderDetailDTO) :=
  match OrderRepository.get_by_code db order_code with
  | none => (db, .ok none)
  | some _ => (db, .error "UnmappedInstanceError")

/-- Embedding of `OrderService.update_order_status`: validates the arguments, raises
`LookupError` on the repository's not-found `None`, and otherwise
propagates the repository outcome. -/
def OrderService.update_order_status (db : OrdersDB)
    (order_code new_status : String) :
    OrdersDB × Except String OrderDetailDTO :=
  if pyStrip order_code == "" then
    (db, .error "Order code must be a valid non-empty string")
  else if pyStrip new_status == "" then
    (db, .error "New status cannot be empty")
  else
    match OrderRepository.update_status db order_code new_status with
    | (db2, .ok none) =>
        (db2, .error ("Order with code " ++ order_code
          ++ " not found for status update"))
    | (db2, .ok (some d)) => (db2, .ok d)
    | (db2, .error e) => (db2, .error e)

/-- Embedding of `UpdateOrderItemsDTO` (`src/data/dto/update_order_items_dto.py`). -/
structure UpdateOrderItemsDTO where
  order_code : String
  items : List CreateOrderItemDTO
deriving DecidableEq

/-- Embedding of `OrderRepository.update_items`: re-reads the order as a detached DTO
copy, deletes the existing item rows, inserts the new ones, computes the
new total but assigns it to the DTO copy only, commits (persisting the
item replacement — `IntegrityError` and rollback if a new item references
a missing product), then raises `UnmappedInstanceError` from
`session.refresh` on the non-ORM object.  The stored `total_amount` is
never updated and the rebuilt detail is never returned. -/
def OrderRepository.update_items (db : OrdersDB)
    (update_data : UpdateOrderItemsDTO) :
    OrdersDB × Except String (Option OrderDetailDTO) :=
  match OrderRepository.get_by_code db update_data.order_code with
  | none => (db, .ok none)
  | some order =>
      if update_data.items.all (fun it =>
          db.products.any fun p => p.id == it.product_id) then
        let remaining :=
          db.order_items.filter (fun it => !(it.order_id == order.order_id))
        let new_items := update_data.items.enum.map fun ni =>
          ({ id := db.next_item_id + (ni.1 : ℤ), order_id := order.order_id,
             product_id := ni.2.product_id, quantity := ni.2.quantity,
             price_per_unit := ni.2.price_per_unit } : OrderItemRow)
        ({ db with order_items := remaining ++ new_items,
                   next_item_id := db.next_item_id + update_data.items.length },
         .error "UnmappedInstanceError")
      else (db, .error "IntegrityError")

/-- Embedding of `OrderService.update_order_items`: validates the arguments, raises
`LookupError` on the repository's not-found `None`, and otherwise
propagates the repository outcome. -/
def OrderService.update_order_items (db : OrdersDB)
    (update_data : UpdateOrderItemsDTO) :
    OrdersDB × Except String OrderDetailDTO :=
  if pyStrip update_data.order_code == "" then
    (db, .error "Order code must be a valid non-empty string")
  else if update_data.items.isEmpty then
    (db, .error "Order must have at least one item")
  else
    match OrderRepository.update_items db update_data with
    | (db2, .ok none) =>
        (db2, .error ("Order with code " ++ update_data.order_code
          ++ " not found for item update"))
    | (db2, .ok (some d)) => (db2, .ok d)
    | (db2, .error e) => (db2, .error e)

/-! ### Agent order-creation tool (`src/agent/customer_service_agent.py`) -/

/-- JSON string literal (escaping is irrelevant to the claims). -/
def jsonStr (s : String) : String := "\"" ++ s ++ "\""

/-- Embedding of `model_dump_json` of an `OrderItemDetailDTO`, modelled as a direct
rendering of the fields. -/
def OrderItemDetailDTO.model_dump_json (i : OrderItemDetailDTO) : String :=
  "\x7b\"product_id\": " ++ toString i.product_id ++ ", \"product_name\": "
    ++ jsonStr i.product_name ++ ", \"quantity\": " ++ toString i.quantity
    ++ ", \"price_per_unit\": " ++ toString i.price_per_unit
    ++ ", \"subtotal\": " ++ toString i.subtotal ++ "\x7d"

/-- Embedding of `model_dump_json` of an `OrderDetailDTO`, modelled as a direct
rendering of the fields. -/
def OrderDetailDTO.model_dump_json (d : OrderDetailDTO) : String :=
  "\x7b\"order_id\": " ++ toString d.order_id ++ ", \"order_code\": "
    ++ jsonStr d.order_code ++ ", \"customer_name\": " ++ jsonStr d.customer_name
    ++ ", \"customer_phone\": " ++ jsonStr d.customer_phone
    ++ ", \"customer_address\": " ++ jsonStr d.customer_address
    ++ ", \"payment_method\": " ++ jsonStr d.payment_method
    ++ ", \"total_amount\": " ++ toString d.total_amount
    ++ ", \"status\": " ++ jsonStr d.status
    ++ ", \"items\": [" ++ String.intercalate ", "
        (d.items.map OrderItemDetailDTO.model_dump_json) ++ "]\x7d"

/-- Embedding of `CustomerServiceAgent.create_order_tool`: calls the order service
inside `try/except Exception`; a success becomes a success message
carrying the created detail, any exception becomes a textual error
message — the tool always returns a string. -/
def CustomerServiceAgent.create_order_tool (db : OrdersDB)
    (order_data : CreateOrderDTO) (generated_code : String) :
    OrdersDB × String :=
  match OrderService.create_order db order_data generated_code with
  | (db2, .ok result) =>
      (db2, "Pedido creado exitosamente. Detalles: " ++ result.model_dump_json)
  | (db2, .error e) => (db2, "Error al crear el pedido: " ++ e)

/-! ### Claims C1, C3, C4, C9 -/

/-- Claim C1 (amended): the created order's `total_amount` — in the
returned detail and in the stored row — is the caller-supplied
`order_data.total_amount`, taken verbatim; no layer recomputes or checks
it against the items, so it equals Σ quantity·price_per_unit exactly when
the caller passes that sum. -/
theorem C1_create_total_is_callers (db : OrdersDB) (order_data : CreateOrderDTO)
    (generated_code : String) (db2 : OrdersDB) (detail : OrderDetailDTO)
    (h : OrderService.create_order db order_data generated_code
      = (db2, Except.ok detail)) :
    detail.total_amount = order_data.total_amount ∧
    ∃ row, db2.orders.find? (fun o => o.order_code == generated_code) = some row
      ∧ row.total_amount = order_data.total_amount := by
  unfold OrderService.create_order at h
  by_cases hemp : order_data.items.isEmpty
  · rw [if_pos hemp] at h
    simp [Prod.ext_iff] at h
  · rw [if_neg hemp] at h
    unfold OrderRepository.create at h
    by_cases hok : ((order_data.items.all fun it =>
        db.products.any fun p => p.id == it.product_id)
        && !(db.orders.any fun o => o.order_code == generated_code)) = true
    · rw [if_pos hok] at h
      have hnocode : (db.orders.any fun o => o.order_code == generated_code)
          = false := by
        have h2 := (Bool.and_eq_true _ _).mp hok
        simpa using h2.2
      have hnone : db.orders.find? (fun o => o.order_code == generated_code)
          = none := by
        rw [List.find?_eq_none]
        exact List.any_eq_false.mp hnocode
      have hfindrow :
          (createdDB db order_data generated_code).orders.find?
            (fun o => o.order_code == generated_code)
          = some (createdOrderRow db order_data generated_code) := by
        show (db.orders ++ [createdOrderRow db order_data generated_code]).find? _
          = _
        rw [List.find?_append, hnone]
        simp [createdOrderRow]
      have hdet : OrderRepository.get_detail_by_code
          (createdDB db order_data generated_code) generated_code
          = some { order_id := (createdOrderRow db order_data generated_code).id,
                   order_code :=
                     (createdOrderRow db order_data generated_code).order_code,
                   customer_name := order_data.customer_name,
                   customer_phone := order_data.customer_phone,
                   customer_address := order_data.customer_address,
                   payment_method := order_data.payment_method,
                   total_amount := order_data.total_amount, status := "pending",
                   items :=
                     order_items_detail (createdDB db order_data generated_code)
                       (createdOrderRow db order_data generated_code).id } := by
        unfold OrderRepository.get_detail_by_code
        rw [hfindrow]
        rfl
      rw [hdet] at h
      simp only [Prod.mk.injEq, Except.ok.injEq] at h
      obtain ⟨hdb, hd⟩ := h
      constructor
      · rw [← hd]
      · refine ⟨createdOrderRow db order_data generated_code, ?_, rfl⟩
        rw [← hdb]
        exact hfindrow
    · rw [if_neg hok] at h
      simp [Prod.ext_iff] at h

/-- Order store with two products, used as the base state of several
concrete scenarios. -/
def C1db : OrdersDB :=
  { orders := [], order_items := [],
    products := [⟨1, "Empanada de Pino", none, 1800, true, []⟩,
                 ⟨2, "Cazuela", none, 2500, true, []⟩],
    next_order_id := 1, next_item_id := 1 }

/-- The spec scenario input: two items summing to 4500, with the matching
caller-supplied total. -/
def C1dto : CreateOrderDTO :=
  { customer_name := "Ana", customer_phone := "+56911111111",
    customer_address := "Calle Uno 123", payment_method := "efectivo",
    total_amount := 4500, items := [⟨1, 2, 1000⟩, ⟨2, 1, 2500⟩] }

/-- The detail returned for the spec scenario `C1dto`. -/
def C1detail : OrderDetailDTO :=
  { order_id := 1, order_code := "k3x9w2", customer_name := "Ana",
    customer_phone := "+56911111111", customer_address := "Calle Uno 123",
    payment_method := "efectivo", total_amount := 4500, status := "pending",
    items := [⟨1, "Empanada de Pino", 2, 1000, 2000⟩,
              ⟨2, "Cazuela", 1, 2500, 2500⟩] }

/-- Witness for claim C1 at the spec scenario: the persisted and returned
total is the caller's 4500. -/
theorem C1_witness :
    C1detail.total_amount = C1dto.total_amount ∧
    ∃ row, (createdDB C1db C1dto "k3x9w2").orders.find?
        (fun o => o.order_code == "k3x9w2") = some row ∧
      row.total_amount = C1dto.total_amount :=
  C1_create_total_is_callers C1db C1dto "k3x9w2"
    (createdDB C1db C1dto "k3x9w2") C1detail rfl

/-- A pydantic-valid order input whose caller-supplied total (1) is not the
item sum (2000). -/
def C1badDto : CreateOrderDTO :=
  { customer_name := "Ana", customer_phone := "+56911111111",
    customer_address := "Calle Uno 123", payment_method := "efectivo",
    total_amount := 1, items := [⟨1, 2, 1000⟩] }

/-- The detail returned for `C1badDto`: total 1, not 2000. -/
def C1badDetail : OrderDetailDTO :=
  { order_id := 1, order_code := "a1b2c3", customer_name := "Ana",
    customer_phone := "+56911111111", customer_address := "Calle Uno 123",
    payment_method := "efectivo", total_amount := 1, status := "pending",
    items := [⟨1, "Empanada de Pino", 2, 1000, 2000⟩] }

/-- Counterexample for claim C1 as stated: a valid creation input whose
created order's `total_amount` (1) differs from the item sum (2000). -/
theorem C1_counterexample :
    C1badDto.valid ∧
    (OrderService.create_order C1db C1badDto "a1b2c3").2
      = Except.ok C1badDetail ∧
    C1badDetail.total_amount = 1 ∧
    (C1badDto.items.map (fun i => i.quantity * i.price_per_unit)).sum = 2000 ∧
    C1badDetail.total_amount
      ≠ (C1badDto.items.map (fun i => i.quantity * i.price_per_unit)).sum := by
  refine ⟨by decide, rfl, rfl, rfl, by decide⟩

/-- Order store holding one order (`abc123`, total 4500, status
`pending`) with two item rows, used as the failing input of claims C3 and
C4. -/
def C3db : OrdersDB :=
  { orders := [⟨1, "abc123", "Ana", "+56911111111", "Calle Uno 123",
               "efectivo", 4500, "pending"⟩],
    order_items := [⟨1, 1, 1, 2, 1000⟩, ⟨2, 1, 2, 1, 2500⟩],
    products := [⟨1, "Empanada de Pino", none, 1800, true, []⟩,
                 ⟨2, "Cazuela", none, 2500, true, []⟩],
    next_order_id := 2, next_item_id := 3 }

/-- Claim C3 (code bug): the not-found half holds — an unknown code gives
the repository `None` and the service a `LookupError`, with no row
mutated — but for an existing code the source mutates the detached
`OrderDetailDTO` copy and then `session.refresh` raises
`UnmappedInstanceError`: the stored status stays `"pending"` instead of
being overwritten. -/
theorem C3_update_status_bug :
    OrderRepository.update_status C3db "zzzzzz" "delivered"
      = (C3db, Except.ok none) ∧
    OrderService.update_order_status C3db "zzzzzz" "delivered"
      = (C3db, Except.error
          "Order with code zzzzzz not found for status update") ∧
    OrderRepository.update_status C3db "abc123" "delivered"
      = (C3db, Except.error "UnmappedInstanceError") ∧
    (OrderRepository.update_status C3db "abc123" "delivered").1.orders.map
      OrderRow.status = ["pending"] :=
  ⟨rfl, rfl, rfl, rfl⟩

/-- The state after `update_items` on `C3db` with one new item: the item
rows are replaced, but the order row keeps the stale total 4500. -/
def C4db2 : OrdersDB :=
  { orders := [⟨1, "abc123", "Ana", "+56911111111", "Calle Uno 123",
               "efectivo", 4500, "pending"⟩],
    order_items := [⟨3, 1, 1, 1, 1000⟩],
    products := [⟨1, "Empanada de Pino", none, 1800, true, []⟩,
                 ⟨2, "Cazuela", none, 2500, true, []⟩],
    next_order_id := 2, next_item_id := 4 }

/-- Claim C4 (code bug): the not-found half holds, and the item rows are
indeed replaced wholesale; but the new total (1000) is assigned to the
detached DTO copy only, so the stored `total_amount` stays 4500 and the
call raises `UnmappedInstanceError` instead of returning the updated
detail. -/
theorem C4_update_items_bug :
    OrderRepository.update_items C3db ⟨"zzzzzz", [⟨1, 1, 1000⟩]⟩
      = (C3db, Except.ok none) ∧
    OrderService.update_order_items C3db ⟨"zzzzzz", [⟨1, 1, 1000⟩]⟩
      = (C3db, Except.error
          "Order with code zzzzzz not found for item update") ∧
    OrderRepository.update_items C3db ⟨"abc123", [⟨1, 1, 1000⟩]⟩
      = (C4db2, Except.error "UnmappedInstanceError") ∧
    C4db2.order_items = [⟨3, 1, 1, 1, 1000⟩] ∧
    C4db2.orders.map OrderRow.total_amount = [4500] ∧
    (([⟨1, 1, 1000⟩] : List CreateOrderItemDTO).map
      (fun i => i.quantity * i.price_per_unit)).sum = 1000 :=
  ⟨rfl, rfl, rfl, rfl, rfl, rfl⟩

/-- Claim C9: the agent's order tool never propagates an exception — an
error from the service becomes the textual message
`"Error al crear el pedido: ..."`, and a success becomes a success
message carrying the created order detail. -/
theorem C9_tool_never_raises (db : OrdersDB) (order_data : CreateOrderDTO)
    (generated_code : String) :
    (∀ db2 e, OrderService.create_order db order_data generated_code
        = (db2, Except.error e) →
      CustomerServiceAgent.create_order_tool db order_data generated_code
        = (db2, "Error al crear el pedido: " ++ e)) ∧
    (∀ db2 d, OrderService.create_order db order_data generated_code
        = (db2, Except.ok d) →
      CustomerServiceAgent.create_order_tool db order_data generated_code
        = (db2, "Pedido creado exitosamente. Detalles: "
            ++ d.model_dump_json)) := by
  unfold CustomerServiceAgent.create_order_tool
  constructor
  · intro db2 e h
    rw [h]
  · intro db2 d h
    rw [h]

/-- Witness for claim C9: an empty item list makes the service raise, and
the tool turns the exception into the error text. -/
theorem C9_witness :
    CustomerServiceAgent.create_order_tool C1db
      ⟨"Ana", "+56911111111", "Calle Uno 123", "efectivo", 4500, []⟩ "a1b2c3"
      = (C1db, "Error al crear el pedido: Order must contain at least one item") :=
  (C9_tool_never_raises C1db
    ⟨"Ana", "+56911111111", "Calle Uno 123", "efectivo", 4500, []⟩ "a1b2c3").1
    C1db "Order must contain at least one item" rfl

/-! ### Daily menu store (`src/data/models/daily_menu.py`,
`src/data/repository/daily_menu_repository.py`) -/

/-- Row of the `daily_menu` table.  The calendar date is modelled as an
integer day index. -/
structure DailyMenuRow where
  id : ℤ
  product_id : ℤ
  stock : ℤ
  menu_date : ℤ
deriving DecidableEq

/-- Embedding of `DailyMenuItemDTO` (`src/data/dto/daily_menu_item_dto.py`). -/
structure DailyMenuItemDTO where
  menu_id : ℤ
  product_id : ℤ
  product_name : String
  description : Option String
  price : ℤ
  stock : ℤ
  menu_date : ℤ
deriving DecidableEq

/-- The `where` clause of the menu-row query: same product and date. -/
def menuMatch (product_id menu_date : ℤ) (m : DailyMenuRow) : Bool :=
  m.product_id == product_id && m.menu_date == menu_date

/-- The committed effect of `menu_item.stock -= quantity`: the matching
row's stock drops by `quantity`, all other rows are untouched. -/
def menuDec (menu : List DailyMenuRow) (product_id menu_date quantity : ℤ) :
    List DailyMenuRow :=
  menu.map fun m =>
    if menuMatch product_id menu_date m then
      { m with stock := m.stock - quantity }
    else m

/-- Embedding of `DailyMenuRepository.decrease_stock`: `None` when the row is absent or
`stock < quantity` (stock untouched); otherwise the decrement is committed
and the DTO is built from the decremented row joined with its product
(a missing product row — impossible under the foreign key — would raise
`ValueError` after the decrement was already committed). -/
def DailyMenuRepository.decrease_stock (menu : List DailyMenuRow)
    (products : List ProductRow) (product_id menu_date quantity : ℤ) :
    List DailyMenuRow × Except String (Option DailyMenuItemDTO) :=
  match menu.find? (menuMatch product_id menu_date) with
  | none => (menu, .ok none)
  | some menu_item =>
      if menu_item.stock < quantity then (menu, .ok none)
      else
        let menu2 := menuDec menu product_id menu_date quantity
        match products.find? (fun p => p.id == menu_item.product_id) with
        | none =>
            (menu2, .error "Producto no encontrado para el item de menu actualizado")
        | some product =>
            (menu2, .ok (some
              { menu_id := menu_item.id, product_id := menu_item.product_id,
                product_name := product.name,
                description := product.description, price := product.price,
                stock := menu_item.stock - quantity,
                menu_date := menu_item.menu_date }))

/-- Decrementing the stock of the matching rows commutes with looking the
row up: the update does not touch `product_id` or `menu_date`. -/
theorem menu_find_map_decrement (menu : List DailyMenuRow)
    (product_id menu_date quantity : ℤ) :
    (menuDec menu product_id menu_date quantity).find?
      (menuMatch product_id menu_date)
    = (menu.find? (menuMatch product_id menu_date)).map
        (fun m => { m with stock := m.stock - quantity }) := by
  unfold menuDec
  rw [List.find?_map]
  have hp : (menuMatch product_id menu_date ∘ fun m =>
      if menuMatch product_id menu_date m then
        { m with stock := m.stock - quantity }
      else m) = menuMatch product_id menu_date := by
    funext m
    by_cases h : menuMatch product_id menu_date m
    · simp only [Function.comp_apply, if_pos h]
      simpa [menuMatch] using h
    · simp only [Function.comp_apply, if_neg h]
  rw [hp]
  cases hf : menu.find? (menuMatch product_id menu_date) with
  | none => rfl
  | some a =>
      have ha : menuMatch product_id menu_date a = true :=
        List.find?_some (p := menuMatch product_id menu_date) hf
      simp [ha]

/-- Embedding of `decrease_stock` when the menu row was found, written without the
outer `match`. -/
theorem decrease_stock_eq_of_found (menu : List DailyMenuRow)
    (products : List ProductRow) (product_id menu_date quantity : ℤ)
    (item : DailyMenuRow)
    (hfind : menu.find? (menuMatch product_id menu_date) = some item) :
    DailyMenuRepository.decrease_stock menu products product_id menu_date
      quantity
      = if item.stock < quantity then (menu, Except.ok none)
        else
          match products.find? (fun p => p.id == item.product_id) with
          | none => (menuDec menu product_id menu_date quantity,
              Except.error "Producto no encontrado para el item de menu actualizado")
          | some product => (menuDec menu product_id menu_date quantity,
              Except.ok (some { menu_id := item.id,
                                product_id := item.product_id,
                                product_name := product.name,
                                description := product.description,
                                price := product.price,
                                stock := item.stock - quantity,
                                menu_date := item.menu_date })) := by
  unfold DailyMenuRepository.decrease_stock
  rw [hfind]

/-! ### Claim C5 -/

/-- Claim C5: when no menu row matches (product, date), or the requested
quantity exceeds the current stock, `decrease_stock` returns the
not-found `None` and the stored state is unchanged; when
`quantity ≤ stock` (and the product row exists, as the foreign key
guarantees) it succeeds, the matching row's stored stock becomes
`stock - quantity`, and every other row is untouched. -/
theorem C5_decrease_stock_spec (menu : List DailyMenuRow)
    (products : List ProductRow) (product_id menu_date quantity : ℤ) :
    (menu.find? (menuMatch product_id menu_date) = none →
      DailyMenuRepository.decrease_stock menu products product_id menu_date
        quantity = (menu, Except.ok none)) ∧
    (∀ item, menu.find? (menuMatch product_id menu_date) = some item →
      item.stock < quantity →
      DailyMenuRepository.decrease_stock menu products product_id menu_date
        quantity = (menu, Except.ok none)) ∧
    (∀ item product, menu.find? (menuMatch product_id menu_date) = some item →
      quantity ≤ item.stock →
      products.find? (fun p => p.id == item.product_id) = some product →
      ∃ dto, DailyMenuRepository.decrease_stock menu products product_id
          menu_date quantity
          = (menuDec menu product_id menu_date quantity, Except.ok (some dto)) ∧
        dto.stock = item.stock - quantity ∧
        (menuDec menu product_id menu_date quantity).find?
            (menuMatch product_id menu_date)
          = some { item with stock := item.stock - quantity } ∧
        (∀ m ∈ menu, menuMatch product_id menu_date m = false →
          m ∈ menuDec menu product_id menu_date quantity) ∧
        (menuDec menu product_id menu_date quantity).length = menu.length) := by
  refine ⟨?_, ?_, ?_⟩
  · intro h
    unfold DailyMenuRepository.decrease_stock
    rw [h]
  · intro item hfind hlt
    rw [decrease_stock_eq_of_found menu products product_id menu_date quantity
      item hfind, if_pos hlt]
  · intro item product hfind hle hprod
    have hnlt : ¬ item.stock < quantity := not_lt.mpr hle
    refine ⟨{ menu_id := item.id, product_id := item.product_id,
              product_name := product.name, description := product.description,
              price := product.price, stock := item.stock - quantity,
              menu_date := item.menu_date }, ?_, rfl, ?_, ?_, ?_⟩
    · rw [decrease_stock_eq_of_found menu products product_id menu_date quantity
        item hfind, if_neg hnlt, hprod]
    · rw [menu_find_map_decrement, hfind]
      rfl
    · intro m hm hfalse
      unfold menuDec
      exact List.mem_map.mpr ⟨m, hm, by simp [hfalse]⟩
    · unfold menuDec
      simp

/-- Witness for claim C5 at the spec scenario: stock 5 for product 7 on
day 100, decreased by 3, becomes 2. -/
theorem C5_witness :
    ∃ dto, DailyMenuRepository.decrease_stock [⟨1, 7, 5, 100⟩]
        [⟨7, "Cazuela", none, 2500, true, []⟩] 7 100 3
        = (menuDec [⟨1, 7, 5, 100⟩] 7 100 3, Except.ok (some dto)) ∧
      dto.stock = (⟨1, 7, 5, 100⟩ : DailyMenuRow).stock - 3 ∧
      (menuDec [⟨1, 7, 5, 100⟩] 7 100 3).find? (menuMatch 7 100)
        = some { (⟨1, 7, 5, 100⟩ : DailyMenuRow) with
                 stock := (⟨1, 7, 5, 100⟩ : DailyMenuRow).stock - 3 } ∧
      (∀ m ∈ [(⟨1, 7, 5, 100⟩ : DailyMenuRow)], menuMatch 7 100 m = false →
        m ∈ menuDec [⟨1, 7, 5, 100⟩] 7 100 3) ∧
      (menuDec [⟨1, 7, 5, 100⟩] 7 100 3).length
        = [(⟨1, 7, 5, 100⟩ : DailyMenuRow)].length :=
  (C5_decrease_stock_spec [⟨1, 7, 5, 100⟩]
      [⟨7, "Cazuela", none, 2500, true, []⟩] 7 100 3).2.2
    ⟨1, 7, 5, 100⟩ ⟨7, "Cazuela", none, 2500, true, []⟩
    (by decide) (by decide) (by decide)

/-! ### Product store semantic search
(`src/data/repository/product_repository.py`,
`src/data/dto/product_search_result_dto.py`) -/

/-- Embedding of `ProductSearchResultDTO` (`src/data/dto/product_search_result_dto.py`). -/
structure ProductSearchResultDTO where
  product_id : ℤ
  name : String
  description : Option String
  price : ℤ
  available : Bool
  similarity_score : ℚ
deriving DecidableEq

/-- The `where` stage of `semantic_search`: unavailable products are
excluded before ranking when `only_available` is set. -/
def searchRows (db : List ProductRow) (only_available : Bool) :
    List ProductRow :=
  if only_available then db.filter (fun p => p.available) else db

/-- The select-list stage: each row paired with its similarity score
`1 - (embedding <=> query)`.  `cosine_distance` stands for the external
pgvector `<=>` operator (cosine distance: 0 for identical directions, up
to 2 for opposite ones), passed as a parameter.  The row carries the
labels `id, name, description, price, available, similarity_score` — the
id column is labelled `"id"`, not `"product_id"`. -/
def searchScored (cosine_distance : List ℚ → List ℚ → ℚ)
    (db : List ProductRow) (query_embedding : List ℚ)
    (only_available : Bool) : List (ProductRow × ℚ) :=
  (searchRows db only_available).map fun p =>
    (p, 1 - cosine_distance p.embedding query_embedding)

/-- The `order_by(desc(similarity_score))` stage. -/
def searchOrdered (cosine_distance : List ℚ → List ℚ → ℚ)
    (db : List ProductRow) (query_embedding : List ℚ)
    (only_available : Bool) : List (ProductRow × ℚ) :=
  (searchScored cosine_distance db query_embedding only_available).mergeSort
    fun a b => decide (b.2 ≤ a.2)

/-- The `limit(top_k)` stage. -/
def searchTopK (cosine_distance : List ℚ → List ℚ → ℚ)
    (db : List ProductRow) (query_embedding : List ℚ) (top_k : ℕ)
    (only_available : Bool) : List (ProductRow × ℚ) :=
  (searchOrdered cosine_distance db query_embedding only_available).take top_k

/-- Embedding of `ProductRepository.semantic_search`: the staged query
(filter, score, descending order, truncate) followed by
`ProductSearchResultDTO(**dict(row))` per row.  Each row dict has the key
`"id"` (so labelled in the select list) while the DTO requires a
`product_id` field with no alias and no default, so pydantic raises a
missing-field `ValidationError` for every row — before any of the range
constraints are even consulted.  The comprehension therefore completes
only over zero rows: a run either returns `[]` or raises. -/
def ProductRepository.semantic_search (cosine_distance : List ℚ → List ℚ → ℚ)
    (db : List ProductRow) (query_embedding : List ℚ) (top_k : ℕ)
    (only_available : Bool) : Except String (List ProductSearchResultDTO) :=
  match searchTopK cosine_distance db query_embedding top_k only_available with
  | [] => .ok []
  | _ :: _ => .error "ValidationError"

/-- A successful `semantic_search` run can only return the empty list:
the DTO construction fails on every row it is given. -/
theorem semantic_search_ok_empty (cosine_distance : List ℚ → List ℚ → ℚ)
    (db : List ProductRow) (query_embedding : List ℚ) (top_k : ℕ)
    (only_available : Bool) (rs : List ProductSearchResultDTO)
    (h : ProductRepository.semantic_search cosine_distance db query_embedding
      top_k only_available = Except.ok rs) : rs = [] := by
  unfold ProductRepository.semantic_search at h
  cases htop : searchTopK cosine_distance db query_embedding top_k
      only_available with
  | nil =>
      rw [htop] at h
      simp only [Except.ok.injEq] at h
      exact h.symm
  | cons a t =>
      rw [htop] at h
      simp at h

/-- A single available product with a one-dimensional embedding, the
concrete table of the search scenarios. -/
def C6product : ProductRow := ⟨1, "Empanada de Pino", none, 1800, true, [1]⟩

/-- Constant-zero external distance: an identical-direction query, giving
raw similarity score 1. -/
def distZero : List ℚ → List ℚ → ℚ := fun _ _ => 0

/-- The identical-direction query against the one-product table produces
exactly one ranked row, with score 1. -/
theorem searchTopK_distZero_run :
    searchTopK distZero [C6product] [1] 5 true = [(C6product, 1)] := by
  have h1 : searchScored distZero [C6product] [1] true = [(C6product, 1)] := by
    unfold searchScored searchRows distZero C6product
    simp
  unfold searchTopK searchOrdered
  rw [h1, List.mergeSort_singleton]
  rfl

/-- Cosine distance restricted to one-dimensional vectors, where
`sqrt (x * x) = |x|` is exact over ℚ: `1 - x*y / (|x|*|y|)`.  On opposite
vectors it is 2, the pgvector maximum, making the raw similarity score
`1 - 2 = -1`. -/
def cosineDistance1 (a b : List ℚ) : ℚ :=
  match a, b with
  | [x], [y] => if x = 0 ∨ y = 0 then 1 else 1 - (x * y) / (|x| * |y|)
  | _, _ => 1

/-- The opposite-direction query against the one-product table produces
exactly one ranked row, with the raw score `1 - cosineDistance1 [1] [-1]`. -/
theorem searchTopK_opposite_run :
    searchTopK cosineDistance1 [C6product] [(-1 : ℚ)] 5 true
      = [(C6product, 1 - cosineDistance1 [1] [-1])] := by
  have h1 : searchScored cosineDistance1 [C6product] [(-1 : ℚ)] true
      = [(C6product, 1 - cosineDistance1 [1] [-1])] := by
    unfold searchScored searchRows C6product
    simp
  unfold searchTopK searchOrdered
  rw [h1, List.mergeSort_singleton]
  rfl

/-! ### Claims C6, C7 -/

/-- Claim C6 (code bug): the staged query itself produces the ranked,
truncated, availability-filtered rows (first conjunct: one well-formed
row with score 1), but the select list labels the id column `"id"` while
`ProductSearchResultDTO` requires `product_id`, so the DTO construction
raises `ValidationError` for every row: a search matching any row raises
instead of returning the ordered list (second conjunct), and only an
empty match returns — necessarily the empty list (third conjunct). -/
theorem C6_semantic_search_validation_bug :
    searchTopK distZero [C6product] [1] 5 true = [(C6product, 1)] ∧
    ProductRepository.semantic_search distZero [C6product] [1] 5 true
      = Except.error "ValidationError" ∧
    ProductRepository.semantic_search distZero [] [1] 5 true
      = Except.ok [] := by
  refine ⟨searchTopK_distZero_run, ?_, ?_⟩
  · unfold ProductRepository.semantic_search
    rw [searchTopK_distZero_run]
  · unfold ProductRepository.semantic_search
    have h0 : searchTopK distZero [] [1] 5 true = [] := by
      unfold searchTopK searchOrdered searchScored searchRows
      simp
    rw [h0]

/-- Claim C7 (code bug): the select list does compute the score
`1 - cosineDistance` — here the opposite-direction raw score -1 — but no
score of any value is ever attached to a returned result: the missing
`product_id` field makes the DTO construction raise `ValidationError`
for every row, for the in-range score 1 (last conjunct) exactly as for
the out-of-range score -1 (fourth conjunct), so callers never observe
any similarity score, negative or otherwise. -/
theorem C7_score_never_attached :
    cosineDistance1 [(1 : ℚ)] [(-1 : ℚ)] = 2 ∧
    1 - cosineDistance1 [(1 : ℚ)] [(-1 : ℚ)] = -1 ∧
    searchTopK cosineDistance1 [C6product] [(-1 : ℚ)] 5 true
      = [(C6product, 1 - cosineDistance1 [1] [-1])] ∧
    ProductRepository.semantic_search cosineDistance1 [C6product] [(-1 : ℚ)]
      5 true = Except.error "ValidationError" ∧
    ProductRepository.semantic_search distZero [C6product] [1] 5 true
      = Except.error "ValidationError" := by
  have hd : cosineDistance1 [(1 : ℚ)] [(-1 : ℚ)] = 2 := by
    unfold cosineDistance1
    norm_num
  refine ⟨hd, by rw [hd]; norm_num, searchTopK_opposite_run, ?_, ?_⟩
  · unfold ProductRepository.semantic_search
    rw [searchTopK_opposite_run]
  · unfold ProductRepository.semantic_search
    rw [searchTopK_distZero_run]
